import Mathlib

/-!
Verification development for the ACV_Lab_1 camera-calibration and ArUco
pose-estimation scripts (`aruco_pose.py`, `calibrate.py`, `capture.py`).
The Python functions are shallowly embedded: real-valued math is modelled
over `ℝ`, pixel/error arithmetic over `ℚ`, stateful loop fragments as
explicit state-passing functions, and fallible operations as `Option`.
External OpenCV routines (`cv2.Rodrigues`, `cv2.solvePnP`'s internal
disambiguation, `cv2.cornerSubPix`'s iteration scheme) are modelled from
the specification, as marked in their doc comments.
-/

namespace ACVLab

/-- Two-argument arctangent with the standard C/numpy convention:
`atan2 y x` is the angle of the point `(x, y)`, in `(-π, π]`, with
`atan2 0 0 = 0`. This models `np.arctan2`. -/
noncomputable def atan2 (y x : ℝ) : ℝ :=
  if 0 < x then Real.arctan (y / x)
  else if x < 0 then
    (if 0 ≤ y then Real.arctan (y / x) + Real.pi else Real.arctan (y / x) - Real.pi)
  else
    (if 0 < y then Real.pi / 2 else if y < 0 then -(Real.pi / 2) else 0)

/-- A 3-vector of reals, modelling a numpy rotation vector `rvec`. -/
structure Vec3 where
  x : ℝ
  y : ℝ
  z : ℝ

/-- A 3×3 real matrix given by its nine entries, modelling the rotation
matrix `R` returned by `cv2.Rodrigues`. -/
structure Mat3 where
  r00 : ℝ
  r01 : ℝ
  r02 : ℝ
  r10 : ℝ
  r11 : ℝ
  r12 : ℝ
  r20 : ℝ
  r21 : ℝ
  r22 : ℝ

/-- The identity rotation matrix. -/
def Mat3.id : Mat3 :=
  ⟨1, 0, 0, 0, 1, 0, 0, 0, 1⟩

/-- Euler angles as returned by `rotation_vector_to_euler`. -/
structure EulerAngles where
  roll : ℝ
  pitch : ℝ
  yaw : ℝ

/-- Radian-to-degree conversion, modelling `np.degrees`. -/
noncomputable def degrees (x : ℝ) : ℝ :=
  x * 180 / Real.pi

/-- Modelled from the spec: `toMatrix(axisAngle)` (the external
`cv2.Rodrigues` call in `rotation_vector_to_euler`). For θ = ‖axisAngle‖
and unit axis k = axisAngle/θ (treated as the identity when θ ≈ 0):
R = I + sin(θ)·K + (1−cos(θ))·K², with K the cross-product matrix of k. -/
noncomputable def rodrigues (v : Vec3) : Mat3 :=
  let θ := Real.sqrt (v.x ^ 2 + v.y ^ 2 + v.z ^ 2)
  if θ = 0 then Mat3.id
  else
    let kx := v.x / θ
    let ky := v.y / θ
    let kz := v.z / θ
    let s := Real.sin θ
    let c := 1 - Real.cos θ
    { r00 := 1 + c * (-(ky ^ 2) - kz ^ 2)
      r01 := -(s * kz) + c * (kx * ky)
      r02 := s * ky + c * (kx * kz)
      r10 := s * kz + c * (kx * ky)
      r11 := 1 + c * (-(kx ^ 2) - kz ^ 2)
      r12 := -(s * kx) + c * (ky * kz)
      r20 := -(s * ky) + c * (kx * kz)
      r21 := s * kx + c * (ky * kz)
      r22 := 1 + c * (-(kx ^ 2) - ky ^ 2) }

/-- The singularity threshold `1e-6` used by `rotation_vector_to_euler`. -/
noncomputable def eulerSingularEps : ℝ :=
  1 / 1000000

/-- Embedding of `rotation_vector_to_euler` (aruco_pose.py lines 56–74):
convert the rotation vector to a matrix, compute `sy = sqrt(R00² + R10²)`,
branch on `sy < 1e-6`, and convert all three angles to degrees. -/
noncomputable def rotation_vector_to_euler (rvec : Vec3) : EulerAngles :=
  let R := rodrigues rvec
  let sy := Real.sqrt (R.r00 ^ 2 + R.r10 ^ 2)
  if sy < eulerSingularEps then
    { roll := degrees (atan2 (-R.r12) R.r11)
      pitch := degrees (atan2 (-R.r20) sy)
      yaw := degrees 0 }
  else
    { roll := degrees (atan2 R.r21 R.r22)
      pitch := degrees (atan2 (-R.r20) sy)
      yaw := degrees (atan2 R.r10 R.r00) }

/-- The spec's `toEuler(matrix)` contract, written from the spec's words
(radians; the degree conversion is applied on top for display): compute
`sy = sqrt(R00² + R10²)`; if `sy ≥ 1e-6` then roll = atan2(R21, R22),
pitch = atan2(−R20, sy), yaw = atan2(R10, R00); if `sy < 1e-6` then
roll = atan2(−R12, R11), pitch = atan2(−R20, sy), yaw = 0 exactly. -/
noncomputable def toEulerSpec (R : Mat3) : EulerAngles :=
  let sy := Real.sqrt (R.r00 ^ 2 + R.r10 ^ 2)
  if eulerSingularEps ≤ sy then
    { roll := atan2 R.r21 R.r22
      pitch := atan2 (-R.r20) sy
      yaw := atan2 R.r10 R.r00 }
  else
    { roll := atan2 (-R.r12) R.r11
      pitch := atan2 (-R.r20) sy
      yaw := 0 }

/-- Componentwise degree conversion of a radian Euler triple. -/
noncomputable def degreesEuler (e : EulerAngles) : EulerAngles :=
  { roll := degrees e.roll, pitch := degrees e.pitch, yaw := degrees e.yaw }

/-- Checked square root: `none` exactly where IEEE `sqrt` would yield NaN
(a negative argument). -/
noncomputable def checkedSqrt (x : ℝ) : Option ℝ :=
  if x < 0 then none else some (Real.sqrt x)

/-- Checked division: `none` exactly where the quotient is undefined
(zero divisor, the IEEE NaN/Inf source). -/
noncomputable def checkedDiv (x y : ℝ) : Option ℝ :=
  if y = 0 then none else some (x / y)

/-- `rodrigues` with every partial numeric operation (square root,
division by θ) routed through the checked variants, so that `none`
marks any place where a NaN/Inf could have been produced. -/
noncomputable def rodriguesChecked (v : Vec3) : Option Mat3 :=
  (checkedSqrt (v.x ^ 2 + v.y ^ 2 + v.z ^ 2)).bind fun θ =>
    if θ = 0 then some Mat3.id
    else
      (checkedDiv v.x θ).bind fun kx =>
        (checkedDiv v.y θ).bind fun ky =>
          (checkedDiv v.z θ).bind fun kz =>
            let s := Real.sin θ
            let c := 1 - Real.cos θ
            some
              { r00 := 1 + c * (-(ky ^ 2) - kz ^ 2)
                r01 := -(s * kz) + c * (kx * ky)
                r02 := s * ky + c * (kx * kz)
                r10 := s * kz + c * (kx * ky)
                r11 := 1 + c * (-(kx ^ 2) - kz ^ 2)
                r12 := -(s * kx) + c * (ky * kz)
                r20 := -(s * ky) + c * (kx * kz)
                r21 := s * kx + c * (ky * kz)
                r22 := 1 + c * (-(kx ^ 2) - ky ^ 2) }

/-- `rotation_vector_to_euler` with all partial numeric operations
checked: the result is `none` whenever any intermediate step would have
produced NaN/Inf. (`atan2` is total for all real arguments, matching
`np.arctan2`, which never returns NaN on finite inputs.) -/
noncomputable def rotation_vector_to_euler_checked (rvec : Vec3) : Option EulerAngles :=
  (rodriguesChecked rvec).bind fun R =>
    (checkedSqrt (R.r00 ^ 2 + R.r10 ^ 2)).bind fun sy =>
      some
        (if sy < eulerSingularEps then
          { roll := degrees (atan2 (-R.r12) R.r11)
            pitch := degrees (atan2 (-R.r20) sy)
            yaw := degrees 0 }
        else
          { roll := degrees (atan2 R.r21 R.r22)
            pitch := degrees (atan2 (-R.r20) sy)
            yaw := degrees (atan2 R.r10 R.r00) })

lemma checkedSqrt_of_nonneg {x : ℝ} (hx : 0 ≤ x) :
    checkedSqrt x = some (Real.sqrt x) := by
  unfold checkedSqrt
  rw [if_neg (not_lt.mpr hx)]

lemma checkedDiv_of_ne {x y : ℝ} (hy : y ≠ 0) :
    checkedDiv x y = some (x / y) := by
  unfold checkedDiv
  rw [if_neg hy]

lemma rodriguesChecked_eq (v : Vec3) :
    rodriguesChecked v = some (rodrigues v) := by
  have hnn : (0 : ℝ) ≤ v.x ^ 2 + v.y ^ 2 + v.z ^ 2 := by positivity
  unfold rodriguesChecked rodrigues
  rw [checkedSqrt_of_nonneg hnn]
  by_cases hθ : Real.sqrt (v.x ^ 2 + v.y ^ 2 + v.z ^ 2) = 0
  · simp [hθ]
  · simp [hθ, checkedDiv_of_ne hθ]

lemma atan2_bounds_of_nonneg (y : ℝ) {x : ℝ} (hx : 0 ≤ x) :
    -(Real.pi / 2) ≤ atan2 y x ∧ atan2 y x ≤ Real.pi / 2 := by
  have hπ := Real.pi_pos
  unfold atan2
  split_ifs with h1 h2 h3 h4 h5
  · exact ⟨le_of_lt (Real.neg_pi_div_two_lt_arctan _),
      le_of_lt (Real.arctan_lt_pi_div_two _)⟩
  · exact absurd h2 (not_lt.mpr hx)
  · exact absurd h2 (not_lt.mpr hx)
  · exact ⟨by linarith, le_refl _⟩
  · exact ⟨le_refl _, by linarith⟩
  · exact ⟨by linarith, by linarith⟩

lemma degrees_bounds {t : ℝ} (h1 : -(Real.pi / 2) ≤ t) (h2 : t ≤ Real.pi / 2) :
    -90 ≤ degrees t ∧ degrees t ≤ 90 := by
  have hπ := Real.pi_pos
  unfold degrees
  constructor
  · rw [le_div_iff₀ hπ]
    linarith
  · rw [div_le_iff₀ hπ]
    linarith

/-- C1: for every rotation matrix obtained from an axis-angle vector via
the Rodrigues mapping, `rotation_vector_to_euler` returns exactly the
spec's `toEuler` extraction — `sy = sqrt(R00² + R10²)`; when `sy ≥ 1e-6`,
roll = atan2(R21, R22), pitch = atan2(−R20, sy), yaw = atan2(R10, R00);
when `sy < 1e-6`, roll = atan2(−R12, R11), pitch = atan2(−R20, sy),
yaw = 0 exactly — with all three angles converted to degrees. -/
theorem rotation_vector_to_euler_matches_spec (rvec : Vec3) :
    rotation_vector_to_euler rvec = degreesEuler (toEulerSpec (rodrigues rvec)) := by
  simp only [rotation_vector_to_euler, toEulerSpec, degreesEuler]
  split_ifs with h1 h2 h3
  · exact absurd h2 (not_le.mpr h1)
  · rfl
  · rfl
  · exact absurd (not_lt.mp h1) h3

/-- C4: `rotation_vector_to_euler` is a total function of the rotation
vector, and the checked evaluation — in which every partial numeric
operation (square root of a possibly negative number, division by a
possibly zero angle) returns `none` where IEEE arithmetic would produce
NaN/Inf — always succeeds and agrees with it, for every input including
θ = 0 and the gimbal-lock branch. -/
theorem rotation_vector_to_euler_total (rvec : Vec3) :
    rotation_vector_to_euler_checked rvec = some (rotation_vector_to_euler rvec) := by
  have hnn : (0 : ℝ) ≤ (rodrigues rvec).r00 ^ 2 + (rodrigues rvec).r10 ^ 2 := by positivity
  unfold rotation_vector_to_euler_checked rotation_vector_to_euler
  rw [rodriguesChecked_eq, Option.some_bind, checkedSqrt_of_nonneg hnn, Option.some_bind]

/-- C9: for every input rotation vector, the pitch returned by
`rotation_vector_to_euler` lies in [−90, 90] degrees, in both the
singular and the non-singular branch, because pitch is computed as
atan2(−R20, sy) with sy a non-negative square root. -/
theorem pitch_in_closed_range (rvec : Vec3) :
    -90 ≤ (rotation_vector_to_euler rvec).pitch ∧
      (rotation_vector_to_euler rvec).pitch ≤ 90 := by
  have hsy : (0 : ℝ) ≤ Real.sqrt ((rodrigues rvec).r00 ^ 2 + (rodrigues rvec).r10 ^ 2) :=
    Real.sqrt_nonneg _
  obtain ⟨hl, hr⟩ := atan2_bounds_of_nonneg (-(rodrigues rvec).r20) hsy
  simp only [rotation_vector_to_euler]
  split_ifs
  · exact degrees_bounds hl hr
  · exact degrees_bounds hl hr

/-- A candidate rigid pose produced by the planar PnP solve, abstracted
to the two fields the disambiguation rule inspects: the z component of
the translation and the residual reprojection error. -/
structure PnPSolution where
  z : ℚ
  residual : ℚ
deriving DecidableEq

/-- Least-residual selection among a list of candidates (leftmost on
ties), the second stage of the disambiguation rule. -/
def argminResidual : List PnPSolution → Option PnPSolution
  | [] => none
  | s :: rest =>
    match argminResidual rest with
    | none => some s
    | some b => if s.residual ≤ b.residual then some s else some b

/-- Modelled from the spec: the disambiguation applied by the
`cv2.solvePnP` call in aruco_pose.py (lines 115–122) to the two-fold
planar reflection ambiguity of a 4-corner marker observation — discard
every candidate solution whose translation z is ≤ 0 (marker behind the
camera) and return, among the remaining geometrically valid candidates,
the one with the lower residual reprojection error. -/
def selectPose (sols : List PnPSolution) : Option PnPSolution :=
  argminResidual (sols.filter fun s => decide (0 < s.z))

lemma argminResidual_cases (a : PnPSolution) (rest : List PnPSolution) :
    (argminResidual rest = none ∧ argminResidual (a :: rest) = some a) ∨
      (∃ b, argminResidual rest = some b ∧
        argminResidual (a :: rest) =
          some (if a.residual ≤ b.residual then a else b)) := by
  cases hrest : argminResidual rest with
  | none => exact Or.inl ⟨rfl, by simp [argminResidual, hrest]⟩
  | some b =>
    refine Or.inr ⟨b, rfl, ?_⟩
    by_cases hle : a.residual ≤ b.residual
    · simp [argminResidual, hrest, hle]
    · simp [argminResidual, hrest, hle]

lemma argminResidual_eq_none {l : List PnPSolution}
    (h : argminResidual l = none) : l = [] := by
  cases l with
  | nil => rfl
  | cons a rest =>
    rcases argminResidual_cases a rest with ⟨_, h2⟩ | ⟨b, _, h2⟩ <;>
      rw [h2] at h <;> simp at h

lemma argminResidual_mem {l : List PnPSolution} :
    ∀ {s : PnPSolution}, argminResidual l = some s → s ∈ l := by
  induction l with
  | nil => intro s h; simp [argminResidual] at h
  | cons a rest ih =>
    intro s h
    rcases argminResidual_cases a rest with ⟨_, h2⟩ | ⟨b, h1, h2⟩
    · rw [h2] at h
      simp at h
      simp [h]
    · rw [h2] at h
      simp at h
      by_cases hle : a.residual ≤ b.residual
      · rw [if_pos hle] at h
        simp [← h]
      · rw [if_neg hle] at h
        exact List.mem_cons_of_mem a (h ▸ ih h1)

lemma argminResidual_le {l : List PnPSolution} :
    ∀ {s : PnPSolution}, argminResidual l = some s →
      ∀ t ∈ l, s.residual ≤ t.residual := by
  induction l with
  | nil => intro s h; simp [argminResidual] at h
  | cons a rest ih =>
    intro s h t ht
    rcases argminResidual_cases a rest with ⟨h1, h2⟩ | ⟨b, h1, h2⟩
    · rw [h2] at h
      simp at h
      subst h
      rcases List.mem_cons.mp ht with rfl | htr
      · exact le_refl _
      · rw [argminResidual_eq_none h1] at htr
        simp at htr
    · rw [h2] at h
      simp at h
      rcases List.mem_cons.mp ht with rfl | htr
      · by_cases hle : t.residual ≤ b.residual
        · rw [if_pos hle] at h
          exact h ▸ le_refl _
        · rw [if_neg hle] at h
          exact h ▸ le_of_lt (not_le.mp hle)
      · have hbt := ih h1 t htr
        by_cases hle : a.residual ≤ b.residual
        · rw [if_pos hle] at h
          exact h ▸ le_trans hle hbt
        · rw [if_neg hle] at h
          exact h ▸ hbt

/-- C2: whenever the pose selection returns a solution, that solution is
one of the candidates, its translation has z > 0 (every candidate with
z ≤ 0 was discarded), and its residual reprojection error is minimal
among all candidates with z > 0. -/
theorem selectPose_picks_valid_min (sols : List PnPSolution) (s : PnPSolution)
    (h : selectPose sols = some s) :
    s ∈ sols ∧ 0 < s.z ∧ ∀ t ∈ sols, 0 < t.z → s.residual ≤ t.residual := by
  unfold selectPose at h
  have hmem := argminResidual_mem h
  have hf := List.mem_filter.mp hmem
  refine ⟨hf.1, of_decide_eq_true hf.2, fun t ht htz => ?_⟩
  exact argminResidual_le h t (List.mem_filter.mpr ⟨ht, decide_eq_true htz⟩)

/-- Closed witness for C2 on a concrete candidate list: the behind-camera
solution (z = −1) is discarded and the lower-residual valid one wins. -/
theorem selectPose_picks_valid_min_witness :
    (⟨2, 3⟩ : PnPSolution) ∈ [(⟨-1, 0⟩ : PnPSolution), ⟨1, 5⟩, ⟨2, 3⟩] ∧
      (0 : ℚ) < (2 : ℚ) ∧
      ∀ t ∈ [(⟨-1, 0⟩ : PnPSolution), ⟨1, 5⟩, ⟨2, 3⟩],
        0 < t.z → (3 : ℚ) ≤ t.residual :=
  selectPose_picks_valid_min [⟨-1, 0⟩, ⟨1, 5⟩, ⟨2, 3⟩] ⟨2, 3⟩ (by decide)

/-- Outcome of processing one calibration image in calibrate.py's main
loop: the file could not be read, the chessboard was not found, or the
chessboard was detected (the sample is refined and appended). -/
inductive ImageResult where
  | unreadable : ImageResult
  | notFound : ImageResult
  | detected : ImageResult
deriving DecidableEq

/-- The `successful` counter of calibrate.py: the number of images whose
chessboard was detected. -/
def countSuccessful (rs : List ImageResult) : Nat :=
  (rs.filter fun r => decide (r = ImageResult.detected)).length

/-- Terminal outcome of a calibration run. -/
inductive CalibOutcome (α : Type) where
  | insufficientSamples : CalibOutcome α
  | solveFailed : CalibOutcome α
  | ok : α → CalibOutcome α
deriving DecidableEq

/-- Embedding of calibrate.py's gating and solve phase (lines 61–112):
count successful detections; if `successful < 3` the run terminates with
the InsufficientSamples error (exit 1); otherwise the calibration solve
runs on the collected samples, its failure (a cv2.error) also being
fatal. The solve itself (`cv2.calibrateCamera`) is external and is
passed in as a function of the success count. -/
def calibrateRun {α : Type} (rs : List ImageResult) (solve : Nat → Option α) :
    CalibOutcome α :=
  let successful := countSuccessful rs
  if successful < 3 then CalibOutcome.insufficientSamples
  else
    match solve successful with
    | none => CalibOutcome.solveFailed
    | some a => CalibOutcome.ok a

/-- C3: calibration fails with InsufficientSamples exactly when fewer
than 3 samples were successfully processed — with 2 successful samples
the run terminates with the error regardless of the solver, and with
exactly 3 samples on which the (well-conditioned) solve succeeds the
run returns its result. -/
theorem calibrate_sample_threshold {α : Type} (rs2 rs3 : List ImageResult)
    (solve : Nat → Option α) (a : α)
    (h2 : countSuccessful rs2 = 2) (h3 : countSuccessful rs3 = 3)
    (hs : solve 3 = some a) :
    calibrateRun rs2 solve = CalibOutcome.insufficientSamples ∧
      calibrateRun rs3 solve = CalibOutcome.ok a := by
  constructor
  · unfold calibrateRun
    rw [h2]
    simp
  · unfold calibrateRun
    rw [h3]
    simp [hs]

/-- Closed witness for C3: two detections out of three images trip the
InsufficientSamples gate; three detections reach the solve and succeed. -/
theorem calibrate_sample_threshold_witness :
    calibrateRun [ImageResult.detected, ImageResult.detected, ImageResult.notFound]
        (fun _ => some 0) = CalibOutcome.insufficientSamples ∧
      calibrateRun [ImageResult.detected, ImageResult.detected, ImageResult.detected]
        (fun _ => some 0) = CalibOutcome.ok 0 :=
  calibrate_sample_threshold
    [ImageResult.detected, ImageResult.detected, ImageResult.notFound]
    [ImageResult.detected, ImageResult.detected, ImageResult.detected]
    (fun _ => some 0) 0 (by decide) (by decide) rfl

/-- The advisory quality classification printed by calibrate.py. -/
inductive Quality where
  | excellent : Quality
  | good : Quality
  | acceptable : Quality
  | poor : Quality
deriving DecidableEq

/-- Embedding of calibrate.py's quality branch (lines 119–127) on the
RMS reprojection error `ret`. -/
def classifyQuality (e : ℚ) : Quality :=
  if e < 1 / 2 then Quality.excellent
  else if e < 1 then Quality.good
  else if e < 2 then Quality.acceptable
  else Quality.poor

/-- The calibration artifact dictionary written to calibration.yaml
(calibrate.py lines 142–150). -/
structure CalibArtifact (α β : Type) where
  camera_matrix : α
  dist_coeff : β
  reprojection_error : ℚ

/-- Embedding of calibrate.py's result phase: classify the error and
build the artifact that is then written unconditionally by `yaml.dump`,
whatever the classification was. -/
def finalizeCalibration {α β : Type} (mtx : α) (dist : β) (ret : ℚ) :
    Quality × CalibArtifact α β :=
  (classifyQuality ret, ⟨mtx, dist, ret⟩)

/-- C5: the quality classification of the final RMS error e is excellent
iff e < 0.5, good iff 0.5 ≤ e < 1, acceptable iff 1 ≤ e < 2, poor iff
e ≥ 2; and the classification is advisory only — for every error,
including poor ones, the full calibration artifact is still produced and
persisted unchanged. -/
theorem quality_classification_and_persistence {α β : Type}
    (mtx : α) (dist : β) (e : ℚ) :
    (classifyQuality e = Quality.excellent ↔ e < 1 / 2) ∧
      (classifyQuality e = Quality.good ↔ 1 / 2 ≤ e ∧ e < 1) ∧
      (classifyQuality e = Quality.acceptable ↔ 1 ≤ e ∧ e < 2) ∧
      (classifyQuality e = Quality.poor ↔ 2 ≤ e) ∧
      (finalizeCalibration mtx dist e).2 =
        CalibArtifact.mk mtx dist e := by
  refine ⟨?_, ?_, ?_, ?_, rfl⟩ <;> unfold classifyQuality <;>
      split_ifs with h1 h2 h3
  · exact iff_of_true rfl h1
  · exact iff_of_false (by decide) h1
  · exact iff_of_false (by decide) h1
  · exact iff_of_false (by decide) h1
  · exact iff_of_false (by decide) fun hc => absurd hc.1 (not_le.mpr h1)
  · exact iff_of_true rfl ⟨not_lt.mp h1, h2⟩
  · exact iff_of_false (by decide) fun hc => h2 hc.2
  · exact iff_of_false (by decide) fun hc => h2 hc.2
  · exact iff_of_false (by decide) fun hc => absurd h1 (not_lt.mpr (by linarith [hc.1]))
  · exact iff_of_false (by decide) fun hc => absurd hc.1 (not_le.mpr h2)
  · exact iff_of_true rfl ⟨not_lt.mp h2, h3⟩
  · exact iff_of_false (by decide) fun hc => h3 hc.2
  · exact iff_of_false (by decide) (by intro hc; linarith)
  · exact iff_of_false (by decide) (by intro hc; linarith)
  · exact iff_of_false (by decide) (not_le.mpr h3)
  · exact iff_of_true rfl (not_lt.mp h3)

/-- The termination criteria passed to `cv2.cornerSubPix` in calibrate.py
(lines 81–84): at most 30 iterations. -/
def cornerRefineMaxIter : Nat := 30

/-- The termination criteria passed to `cv2.cornerSubPix`: stop as soon
as the positional change drops below 0.001 pixels. -/
def cornerRefineEps : ℚ := 1 / 1000

/-- Squared euclidean distance between two pixel positions (comparing it
against `cornerRefineEps ^ 2` is equivalent to comparing the distance
against `cornerRefineEps`). -/
def sqDist (p q : ℚ × ℚ) : ℚ :=
  (p.1 - q.1) ^ 2 + (p.2 - q.2) ^ 2

/-- Modelled from the spec: the iterative local corner refinement inside
`cv2.cornerSubPix` — repeatedly apply one local-optimization update
`step`, stopping when the positional change of an update falls below
`cornerRefineEps` or when the iteration budget is exhausted, whichever
comes first. Returns the refined position and the number of iterations
performed. -/
def refineCorner (step : ℚ × ℚ → ℚ × ℚ) : Nat → ℚ × ℚ → (ℚ × ℚ) × Nat
  | 0, p => (p, 0)
  | n + 1, p =>
    let q := step p
    if sqDist p q < cornerRefineEps ^ 2 then (q, 1)
    else
      let r := refineCorner step n q
      (r.1, r.2 + 1)

lemma refineCorner_count_le (step : ℚ × ℚ → ℚ × ℚ) :
    ∀ (n : Nat) (p : ℚ × ℚ), (refineCorner step n p).2 ≤ n := by
  intro n
  induction n with
  | zero => intro p; simp [refineCorner]
  | succ n ih =>
    intro p
    simp only [refineCorner]
    split_ifs
    · simp
    · simpa using ih (step p)

/-- C6: corner refinement with the criteria calibrate.py passes to
`cv2.cornerSubPix` is bounded — starting from any position it performs
at most 30 iterations, and from any position whose next update already
moves less than 0.001 pixels it stops immediately after that single
update (early epsilon termination). -/
theorem cornerRefine_terminates (step : ℚ × ℚ → ℚ × ℚ) (p q : ℚ × ℚ)
    (h : sqDist q (step q) < cornerRefineEps ^ 2) :
    (refineCorner step cornerRefineMaxIter p).2 ≤ 30 ∧
      refineCorner step cornerRefineMaxIter q = (step q, 1) := by
  constructor
  · exact refineCorner_count_le step 30 p
  · show refineCorner step (29 + 1) q = (step q, 1)
    simp only [refineCorner]
    rw [if_pos h]

/-- Closed witness for C6: with the identity update, any start point has
zero positional change, so the loop stops after one iteration. -/
theorem cornerRefine_terminates_witness :
    (refineCorner (fun p => p) cornerRefineMaxIter ((5 : ℚ), (7 : ℚ))).2 ≤ 30 ∧
      refineCorner (fun p => p) cornerRefineMaxIter ((0 : ℚ), (0 : ℚ)) =
        (((0 : ℚ), (0 : ℚ)), 1) :=
  cornerRefine_terminates (fun p => p) (5, 7) (0, 0)
    (by norm_num [sqDist, cornerRefineEps])

/-- Embedding of the per-marker pose loop body of aruco_pose.py (lines
115–155) restricted to the print-detailed flag: for each marker whose
`cv2.solvePnP` succeeded, if the flag is set, the detailed pose is
printed (counted) and the flag is cleared. Returns the flag after the
frame's markers and the number of detailed printouts. -/
def consumePoses (flag : Bool) : List Bool → Bool × Nat
  | [] => (flag, 0)
  | success :: rest =>
    if success && flag then
      let r := consumePoses false rest
      (r.1, r.2 + 1)
    else consumePoses flag rest

/-- Embedding of one full frame of the main loop of aruco_pose.py as far
as the print-detailed flag is concerned: the markers are processed first
(lines 115–155), then the keyboard is polled and the 'p' key sets the
flag (lines 172–176). -/
def processFrame (flag : Bool) (successes : List Bool) (pressP : Bool) :
    Bool × Nat :=
  let r := consumePoses flag successes
  (if pressP then true else r.1, r.2)

lemma consumePoses_false (ss : List Bool) :
    consumePoses false ss = (false, 0) := by
  induction ss with
  | nil => rfl
  | cons s rest ih => simp [consumePoses, ih]

lemma consumePoses_true (ss : List Bool) :
    consumePoses true ss =
      (!ss.any id, if ss.any id then 1 else 0) := by
  induction ss with
  | nil => rfl
  | cons s rest ih =>
    cases s with
    | false => simpa [consumePoses] using ih
    | true => simp [consumePoses, consumePoses_false]

/-- C7: the print-detailed request is a one-shot edge-triggered flag —
with the flag set, a frame prints the detailed pose exactly once when it
contains a successful pose (it is consumed by the next success) and
zero times otherwise; consumption clears the flag; without a pending
request nothing is printed; the request is consumed by the next
successful pose even when later poses in the frame also succeed; and it
stays pending across any number of frames in which no pose succeeds. -/
theorem print_detailed_one_shot (ss ff rest : List Bool)
    (frames : List (List Bool))
    (hff : ff.any id = false)
    (hframes : ∀ fr ∈ frames, fr.any id = false) :
    (consumePoses true ss).2 = (if ss.any id then 1 else 0) ∧
      (consumePoses true ss).1 = (!ss.any id) ∧
      consumePoses false ss = (false, 0) ∧
      consumePoses true (ff ++ true :: rest) = (false, 1) ∧
      List.foldl (fun f fr => (processFrame f fr false).1) true frames = true := by
  refine ⟨by simp [consumePoses_true], by simp [consumePoses_true],
    consumePoses_false ss, ?_, ?_⟩
  · rw [consumePoses_true]
    simp [List.any_append, hff]
  · induction frames with
    | nil => rfl
    | cons fr frs ih =>
      have h1 : fr.any id = false := hframes fr (List.mem_cons_self fr frs)
      have h2 : ∀ g ∈ frs, g.any id = false :=
        fun g hg => hframes g (List.mem_cons_of_mem fr hg)
      simp only [List.foldl_cons, processFrame, consumePoses_true, h1]
      exact ih h2

/-- Closed witness for C7 on concrete frames: one pending request, a
frame with a failed then two successful poses, all-failure prefix
frames. -/
theorem print_detailed_one_shot_witness :
    (consumePoses true [false, true, true]).2 =
        (if [false, true, true].any id then 1 else 0) ∧
      (consumePoses true [false, true, true]).1 =
        (!([false, true, true].any id)) ∧
      consumePoses false [false, true, true] = (false, 0) ∧
      consumePoses true ([false] ++ true :: [true]) = (false, 1) ∧
      List.foldl (fun f fr => (processFrame f fr false).1) true [[], [false, false]] =
        true :=
  print_detailed_one_shot [false, true, true] [false] [true]
    [[], [false, false]] (by decide) (by decide)

/-- A parsed YAML value as produced by `yaml.safe_load`: a numeric
scalar, a text scalar, a sequence, a mapping, or null. -/
inductive Yaml where
  | num : ℚ → Yaml
  | text : Yaml
  | arr : List Yaml → Yaml
  | kv : List (String × Yaml) → Yaml
  | nullv : Yaml

/-- Python subscription `value[key]` on the loaded document: defined only
when the value is a mapping holding the key; `none` models the uncaught
KeyError / TypeError that otherwise aborts the process. -/
def Yaml.get : Yaml → String → Option Yaml
  | Yaml.kv fields, k => fields.lookup k
  | _, _ => none

mutual

/-- The shape `np.array` infers for a YAML value: scalars (numbers,
strings, null, dicts) become 0-d arrays, sequences become axes; `none`
models the ValueError `np.array` raises on ragged nested sequences. -/
def npShape : Yaml → Option (List Nat)
  | Yaml.num _ => some []
  | Yaml.text => some []
  | Yaml.nullv => some []
  | Yaml.kv _ => some []
  | Yaml.arr xs =>
    match npShapes xs with
    | none => none
    | some [] => some [0]
    | some (s :: rest) =>
      if rest.all fun t => decide (t = s) then some ((rest.length + 1) :: s)
      else none

/-- Shapes of a list of YAML values, `none` when any element is ragged. -/
def npShapes : List Yaml → Option (List (List Nat))
  | [] => some []
  | y :: ys =>
    match npShape y, npShapes ys with
    | some s, some ss => some (s :: ss)
    | _, _ => none

end

/-- How the pose pipeline's startup ends. -/
inductive StartupResult where
  | fatalMissingFile : StartupResult
  | fatalException : StartupResult
  | enterLoop : Yaml → Yaml → StartupResult

/-- Whether a startup outcome terminated the process (with a non-zero
status) before the frame loop was entered. -/
def StartupResult.isFatal : StartupResult → Bool
  | StartupResult.enterLoop _ _ => false
  | _ => true

/-- Embedding of the calibration-loading startup of aruco_pose.py
(lines 31–39): a missing calibration.yaml prints a diagnostic and exits
with status 1; otherwise the file is loaded and `camera_matrix` and
`dist_coeff` are subscripted and passed to `np.array` — a missing key,
a non-mapping document, or a ragged value raises an uncaught exception
(non-zero exit); in every other case the frame loop is entered. -/
def posePipelineStartup (file : Option Yaml) : StartupResult :=
  match file with
  | none => StartupResult.fatalMissingFile
  | some data =>
    match data.get "camera_matrix" with
    | none => StartupResult.fatalException
    | some cm =>
      match npShape cm with
      | none => StartupResult.fatalException
      | some _ =>
        match data.get "dist_coeff" with
        | none => StartupResult.fatalException
        | some dc =>
          match npShape dc with
          | none => StartupResult.fatalException
          | some _ => StartupResult.enterLoop cm dc

/-- Whether a YAML value is a numeric scalar. -/
def Yaml.isNum : Yaml → Bool
  | Yaml.num _ => true
  | _ => false

/-- Whether a YAML value is a `rows × cols` array of numbers. -/
def isFloatMatrix (rows cols : Nat) : Yaml → Bool
  | Yaml.arr rs =>
    decide (rs.length = rows) &&
      rs.all fun r =>
        match r with
        | Yaml.arr es => decide (es.length = cols) && es.all Yaml.isNum
        | _ => false
  | _ => false

/-- The spec's schema for the calibration artifact: `camera_matrix` a
3×3 array of numbers and `dist_coeff` a 1×5 array of numbers. -/
def wellFormedArtifact (y : Yaml) : Bool :=
  match y.get "camera_matrix", y.get "dist_coeff" with
  | some cm, some dc => isFloatMatrix 3 3 cm && isFloatMatrix 1 5 dc
  | _, _ => false

/-- A calibration file whose required fields are present but malformed
(numeric scalars instead of the spec's 3×3 and 1×5 arrays). -/
def badCalibFile : Yaml :=
  Yaml.kv [("camera_matrix", Yaml.num 1), ("dist_coeff", Yaml.num 2)]

/-- C8 counterexample: the claim says a present calibration file with
malformed required fields terminates the process before any frame is
processed, but the code performs no validation — on a file whose two
fields are mere numeric scalars (not the required 3×3 / 1×5 arrays),
startup succeeds and the frame loop is entered. -/
theorem startup_malformed_enters_loop :
    wellFormedArtifact badCalibFile = false ∧
      (posePipelineStartup (some badCalibFile)).isFatal = false :=
  ⟨rfl, rfl⟩

/-- C8 (amended): a missing calibration file is a diagnosed fatal error
(exit 1) before any frame; a present file lacking the `camera_matrix`
key aborts startup through an uncaught exception (non-zero exit) before
any frame; but a present file whose two required fields exist and are
`np.array`-convertible reaches the frame loop without any shape or type
validation, malformed or not. -/
theorem startup_fatal_cases (y z cm dc : Yaml) (scm sdc : List Nat)
    (hcm : Yaml.get y "camera_matrix" = some cm)
    (hscm : npShape cm = some scm)
    (hdc : Yaml.get y "dist_coeff" = some dc)
    (hsdc : npShape dc = some sdc)
    (hz : Yaml.get z "camera_matrix" = none) :
    posePipelineStartup none = StartupResult.fatalMissingFile ∧
      posePipelineStartup (some z) = StartupResult.fatalException ∧
      posePipelineStartup (some y) = StartupResult.enterLoop cm dc := by
  refine ⟨rfl, ?_, ?_⟩
  · simp only [posePipelineStartup, hz]
  · simp only [posePipelineStartup, hcm, hscm, hdc, hsdc]

/-- Closed witness for the amended C8 at concrete files: a malformed but
convertible file enters the loop, and a null document (whose
subscription raises) is fatal. -/
theorem startup_fatal_cases_witness :
    posePipelineStartup none = StartupResult.fatalMissingFile ∧
      posePipelineStartup (some Yaml.nullv) = StartupResult.fatalException ∧
      posePipelineStartup (some badCalibFile) =
        StartupResult.enterLoop (Yaml.num 1) (Yaml.num 2) :=
  startup_fatal_cases badCalibFile Yaml.nullv (Yaml.num 1) (Yaml.num 2) [] []
    rfl rfl rfl rfl rfl

/-- The two per-frame image buffers of capture.py's loop body: the raw
camera frame and the display copy created by `frame.copy()`. -/
structure CaptureFrameBuffers (α : Type) where
  frame : α
  display : α

/-- Embedding of capture.py's loop body (lines 49–62): copy the frame
into `display`, and when the chessboard is found, draw the corner
overlay and the on-screen text onto `display` (and only onto it). -/
def captureProcessFrame {α : Type} (frame : α) (found : Bool)
    (drawCorners drawText : α → α) : CaptureFrameBuffers α :=
  let s0 : CaptureFrameBuffers α := { frame := frame, display := frame }
  if found then { s0 with display := drawText (drawCorners s0.display) }
  else s0

/-- Embedding of capture.py's save step (lines 69–71): when SPACE
(key 32) is pressed and the pattern was found, `cv2.imwrite` persists
the `frame` buffer. -/
def savedImage {α : Type} (s : CaptureFrameBuffers α) (key : Nat)
    (found : Bool) : Option α :=
  if key = 32 ∧ found then some s.frame else none

/-- C10: the image persisted on capture is the unmodified camera frame,
not the display copy — whatever the corner-overlay and text-drawing
functions do, the `frame` buffer is untouched by them, and the file
written on SPACE with the pattern detected is exactly that raw frame. -/
theorem saved_image_is_raw_frame {α : Type} (frame : α) (found : Bool)
    (drawCorners drawText : α → α) (key : Nat) :
    (captureProcessFrame frame found drawCorners drawText).frame = frame ∧
      savedImage (captureProcessFrame frame found drawCorners drawText) key found =
        (if key = 32 ∧ found then some frame else none) := by
  have hf : (captureProcessFrame frame found drawCorners drawText).frame = frame := by
    unfold captureProcessFrame
    split_ifs <;> rfl
  refine ⟨hf, ?_⟩
  unfold savedImage
  rw [hf]

end ACVLab
